import Mathlib

/-!
Shallow embedding of the native backend of the InstantText OCR desktop
utility (src/src-tauri/src/lib.rs) and proofs about its capture, ledger,
settings and hotkey operations.

Modelling conventions:
  - Rust i32 values are embedded as Int, u32 values as Nat; the only integer
    operations the code performs on them are max, min and saturating
    subtraction, which are value-faithful in this range (no wraparound can
    occur), so no explicit modular reduction is needed.
  - The file system is an explicit state: an association list from path
    strings to file contents plus a list of created directories.  External
    IO failures of the OS (read or write errors on an existing file,
    directory creation failures) are not modelled; the claims under study
    concern the logic layered above them.
  - serde_json serialization of the two record types is modelled by a
    content datatype: the ledger file written from a list of OcrResult holds
    that list, the settings file holds an AppSettings record, and malformed
    content is any other constructor.  serde_json writes a non-finite f32
    (NaN or an infinity) as null, and null fails to deserialize back into
    f32; so parsing the document of a result list succeeds, returning
    exactly that list, only when every confidence in it is finite, and fails
    otherwise.  AppSettings holds only strings and booleans, which serde
    round-trips exactly.  Error strings keep the fixed prefix of the Rust
    format string, with the appended lower-level message elided.
  - The screen backend (screenshots::Screen) is modelled by the list of
    available screens carried in the environment; a successful capture of
    the first screen yields its frame.  chrono timestamps are records of
    calendar fields plus nanoseconds; formatting with %Y%m%d_%H%M%S reads
    only the fields down to seconds.
-/

/-- Pixel bitmap produced by a screen capture: width and height in pixels
and the pixel rows (each pixel an RGBA word, embedded as Nat). -/
structure RawFrame where
  width : Nat
  height : Nat
  data : List (List Nat)
deriving DecidableEq

/-- Requested crop rectangle, mirroring struct CaptureRegion in lib.rs:
x and y are i32 (may be negative), width and height are u32. -/
structure CaptureRegion where
  x : Int
  y : Int
  width : Nat
  height : Nat
deriving DecidableEq

/-- Model of image.view(x, y, w, h).to_image(): the sub-bitmap of size w by h
whose pixel (i, j) is pixel (x + i, y + j) of the original. -/
def cropFrame (image : RawFrame) (x y w h : Nat) : RawFrame :=
  { width := w
    height := h
    data := ((image.data.drop y).take h).map (fun row => (row.drop x).take w) }

/-- Region-extraction step of capture_screenshot_region (lib.rs lines 83 to
100): with no region the frame passes through unchanged; with a region the
origin is clamped to be nonnegative, the size is clamped by saturating
subtraction against the frame bounds, a fully degenerate result is rejected
with the invalid-region error, and otherwise the clamped rectangle is
cropped out. -/
def extractRegion (image : RawFrame) (region : Option CaptureRegion) :
    Except String RawFrame :=
  match region with
  | none => Except.ok image
  | some r =>
    let width := image.width
    let height := image.height
    let x := (max r.x 0).toNat
    let y := (max r.y 0).toNat
    let crop_width := min r.width (width - x)
    let crop_height := min r.height (height - y)
    if crop_width = 0 ∨ crop_height = 0 then
      Except.error "Invalid capture region"
    else
      Except.ok (cropFrame image x y crop_width crop_height)

/-- UTC timestamp as chrono exposes it to the formatter: calendar fields
down to the second, plus the subsecond nanoseconds. -/
structure Timestamp where
  year : Nat
  month : Nat
  day : Nat
  hour : Nat
  minute : Nat
  second : Nat
  nanos : Nat
deriving DecidableEq

/-- Truncation of a timestamp to second precision. -/
def truncSecond (t : Timestamp) : Timestamp :=
  { t with nanos := 0 }

/-- Zero-pad a number to two digits, as the chrono specifiers %m %d %H %M %S do. -/
def pad2 (n : Nat) : String :=
  if n < 10 then "0" ++ toString n else toString n

/-- Zero-pad a number to four digits, as the chrono specifier %Y does for
years in the common range. -/
def pad4 (n : Nat) : String :=
  if n < 10 then "000" ++ toString n
  else if n < 100 then "00" ++ toString n
  else if n < 1000 then "0" ++ toString n
  else toString n

/-- Rendering of timestamp.format with the pattern %Y%m%d_%H%M%S; it reads
only the calendar fields, never the nanoseconds. -/
def formatTimestamp (t : Timestamp) : String :=
  pad4 t.year ++ pad2 t.month ++ pad2 t.day ++ "_" ++
    pad2 t.hour ++ pad2 t.minute ++ pad2 t.second

/-- An f32 value as the code carries it: either a finite value, embedded by
its bit payload (serde_json round-trips finite f32 values exactly via the
shortest decimal representation), or one of the non-finite values, which
serde_json serializes as null so that the written document no longer
deserializes back into f32. -/
inductive F32 where
  | finite (bits : Nat)
  | nan
  | posInf
  | negInf
deriving DecidableEq

/-- Whether an f32 value is finite. -/
def F32.isFinite : F32 → Bool
  | F32.finite _ => true
  | _ => false

/-- One recognition result, mirroring struct OcrResult in lib.rs.  The
confidence field is an f32 on which the code performs no arithmetic. -/
structure OcrResult where
  id : String
  text : String
  timestamp : Timestamp
  screenshot_path : String
  confidence : F32
deriving DecidableEq

/-- The settings record, mirroring struct AppSettings in lib.rs. -/
structure AppSettings where
  global_hotkey : String
  auto_copy_to_clipboard : Bool
  save_screenshots : Bool
  screenshots_dir : String
  autostart : Bool
deriving DecidableEq

/-- PathBuf.join on this platform: parent, separator, child. -/
def pathJoin (parent child : String) : String :=
  parent ++ "/" ++ child

/-- get_default_screenshots_dir (lib.rs lines 49 to 56): the home directory,
falling back to the current directory when it is unavailable, joined with
the application folder and the Screenshots subfolder. -/
def get_default_screenshots_dir (home : Option String) : String :=
  pathJoin (pathJoin (home.getD ".") "InstantText OCR") "Screenshots"

/-- AppSettings::default (lib.rs lines 37 to 47). -/
def AppSettings.default (home : Option String) : AppSettings :=
  { global_hotkey := "ctrl+shift+o"
    auto_copy_to_clipboard := true
    save_screenshots := true
    screenshots_dir := get_default_screenshots_dir home
    autostart := false }

/-- get_app_data_dir (lib.rs lines 227 to 232): fails when no home directory
exists, otherwise the home directory joined with the application folder. -/
def get_app_data_dir (home : Option String) : Except String String :=
  match home with
  | none => Except.error "Failed to get home directory"
  | some h => Except.ok (pathJoin h "InstantText OCR")

/-- Content of a file in the modelled file system: the ledger document
serde_json produces from a list of results, a serialized settings record,
an encoded image, or malformed text that parses as neither record type. -/
inductive Content where
  | results (rs : List OcrResult)
  | settings (s : AppSettings)
  | image (img : RawFrame)
  | malformed (text : String)
deriving DecidableEq

/-- Model of serde_json::from_str into Vec of OcrResult, applied to the
document to_string_pretty produced: every non-finite confidence was written
as null, and null does not deserialize into f32, so the parse recovers the
list exactly when every confidence in it is finite and fails otherwise. -/
def parseResults : Content → Option (List OcrResult)
  | Content.results rs =>
    if rs.all (fun r => r.confidence.isFinite) then some rs else none
  | _ => none

/-- Model of serde_json::from_str into AppSettings. -/
def parseSettings : Content → Option AppSettings
  | Content.settings s => some s
  | _ => none

/-- Association-list update: overwrite the entry at the path, or append a
fresh one. -/
def setFile : List (String × Content) → String → Content → List (String × Content)
  | [], p, c => [(p, c)]
  | (q, d) :: rest, p, c =>
    if q = p then (p, c) :: rest else (q, d) :: setFile rest p c

/-- Association-list lookup by path. -/
def lookupFile : List (String × Content) → String → Option Content
  | [], _ => none
  | (q, d) :: rest, p => if q = p then some d else lookupFile rest p

/-- The modelled file system: files by path, plus the directories created so
far. -/
structure FS where
  files : List (String × Content)
  dirs : List String
deriving DecidableEq

/-- Read a file; none models both a missing file and exists() = false. -/
def fsRead (fs : FS) (p : String) : Option Content :=
  lookupFile fs.files p

/-- Model of fs::write: create or fully overwrite the file at the path. -/
def fsWrite (fs : FS) (p : String) (c : Content) : FS :=
  { fs with files := setFile fs.files p c }

/-- Model of fs::create_dir_all: record the directory; it never disturbs
files. -/
def mkdirAll (fs : FS) (d : String) : FS :=
  { fs with dirs := d :: fs.dirs }

/-- Ambient environment of a command invocation: the home directory as
dirs::home_dir returns it, the screens Screen::all enumerates (capture of
the first screen is assumed to succeed and yield its frame), and the current
UTC time. -/
structure Env where
  home : Option String
  screens : List RawFrame
  now : Timestamp

/-- capture_screenshot_region (lib.rs lines 71 to 116), as a function from
the file-system state to the updated state and the result.  An error result
leaves the state exactly as it was at the point of failure; in particular
region validation happens before any directory or file is touched. -/
def capture_screenshot_region (env : Env) (region : Option CaptureRegion)
    (fs : FS) : FS × Except String String :=
  match env.screens with
  | [] => (fs, Except.error "No screens found")
  | image :: _ =>
    match extractRegion image region with
    | Except.error e => (fs, Except.error e)
    | Except.ok final_image =>
      match get_app_data_dir env.home with
      | Except.error e => (fs, Except.error e)
      | Except.ok data_dir =>
        let screenshots_dir := pathJoin data_dir "screenshots"
        let fs1 := mkdirAll fs screenshots_dir
        let filename := "screenshot_" ++ formatTimestamp env.now ++ ".png"
        let filepath := pathJoin screenshots_dir filename
        let fs2 := fsWrite fs1 filepath (Content.image final_image)
        (fs2, Except.ok filepath)

/-- Path of the ledger file under a given home directory. -/
def resultsPath (h : String) : String :=
  pathJoin (pathJoin h "InstantText OCR") "ocr_results.json"

/-- Path of the settings file under a given home directory. -/
def settingsPath (h : String) : String :=
  pathJoin (pathJoin h "InstantText OCR") "settings.json"

/-- Load step of save_ocr_result (lib.rs lines 124 to 130): a missing file
is an empty list, and a parse failure is swallowed into an empty list by
unwrap_or_default. -/
def loadResultsLenient (fs : FS) (p : String) : List OcrResult :=
  match fsRead fs p with
  | some content => (parseResults content).getD []
  | none => []

/-- save_ocr_result (lib.rs lines 119 to 143): load the ledger leniently,
push the new result at the end, rewrite the whole file. -/
def save_ocr_result (env : Env) (result : OcrResult) (fs : FS) :
    FS × Except String Unit :=
  match get_app_data_dir env.home with
  | Except.error e => (fs, Except.error e)
  | Except.ok data_dir =>
    let results_file := pathJoin data_dir "ocr_results.json"
    let results := loadResultsLenient fs results_file
    let results2 := results ++ [result]
    (fsWrite fs results_file (Content.results results2), Except.ok ())

/-- Sequential (no concurrency) iteration of save_ocr_result over a list of
results, oldest first, threading the file-system state. -/
def save_ocr_result_all (env : Env) : List OcrResult → FS → FS
  | [], fs => fs
  | r :: rs, fs => save_ocr_result_all env rs (save_ocr_result env r fs).1

/-- get_ocr_history (lib.rs lines 146 to 161): a missing file yields the
empty list; an existing file is parsed strictly and a parse failure is
surfaced as an error. -/
def get_ocr_history (env : Env) (fs : FS) : Except String (List OcrResult) :=
  match get_app_data_dir env.home with
  | Except.error e => Except.error e
  | Except.ok data_dir =>
    let results_file := pathJoin data_dir "ocr_results.json"
    match fsRead fs results_file with
    | none => Except.ok []
    | some content =>
      match parseResults content with
      | none => Except.error "Failed to parse results file"
      | some results => Except.ok results

/-- get_settings (lib.rs lines 164 to 179): a missing file yields the
computed default record; an existing file is parsed strictly. -/
def get_settings (env : Env) (fs : FS) : Except String AppSettings :=
  match get_app_data_dir env.home with
  | Except.error e => Except.error e
  | Except.ok data_dir =>
    let settings_file := pathJoin data_dir "settings.json"
    match fsRead fs settings_file with
    | none => Except.ok (AppSettings.default env.home)
    | some content =>
      match parseSettings content with
      | none => Except.error "Failed to parse settings file"
      | some s => Except.ok s

/-- save_settings (lib.rs lines 182 to 193): serialize and fully overwrite
the settings file. -/
def save_settings (env : Env) (settings : AppSettings) (fs : FS) :
    FS × Except String Unit :=
  match get_app_data_dir env.home with
  | Except.error e => (fs, Except.error e)
  | Except.ok data_dir =>
    let settings_file := pathJoin data_dir "settings.json"
    (fsWrite fs settings_file (Content.settings settings), Except.ok ())

/-- The OS global-hotkey registry owned by the process: the list of
registered shortcuts, each identified by its normalized spec string. -/
structure HotkeyState where
  registered : List String
deriving DecidableEq

/-- Model of global_shortcut().unregister_all(): empties the registry. -/
def unregister_all (_st : HotkeyState) : HotkeyState :=
  { registered := [] }

/-- register_global_hotkey (lib.rs lines 209 to 225), parameterized by the
external shortcut parser of the plugin: it first unregisters every existing
hotkey (the result of that call is ignored), then parses the string, failing
with a parse error if that fails, and finally registers the parsed
shortcut. -/
def register_global_hotkey (parse : String → Option String)
    (st : HotkeyState) (hotkey : String) : HotkeyState × Except String Unit :=
  let st1 := unregister_all st
  match parse hotkey with
  | none => (st1, Except.error ("Failed to parse hotkey " ++ hotkey))
  | some s => ({ registered := st1.registered ++ [s] }, Except.ok ())

/-! Helper lemmas about the file-system model. -/

theorem lookupFile_setFile_self (l : List (String × Content)) (p : String)
    (c : Content) : lookupFile (setFile l p c) p = some c := by
  induction l with
  | nil => simp [setFile, lookupFile]
  | cons hd tl ih =>
    obtain ⟨q, d⟩ := hd
    by_cases hq : q = p
    · simp [setFile, hq, lookupFile]
    · simp [setFile, hq, lookupFile, ih]

theorem fsRead_fsWrite_self (fs : FS) (p : String) (c : Content) :
    fsRead (fsWrite fs p c) p = some c :=
  lookupFile_setFile_self fs.files p c

theorem fsRead_mkdirAll (fs : FS) (d p : String) :
    fsRead (mkdirAll fs d) p = fsRead fs p := rfl

/-- C1: for every captured frame of size W by H and every supplied
CaptureRegion whose origin lies inside the frame, the region-extraction
step of capture_screenshot_region produces a cropped bitmap whose width is
min(requested width, W - x) and whose height is min(requested height,
H - y), with the clamping of negative origins and the saturating
subtractions of the code collapsing to these formulas. -/
theorem C1_region_extraction_dims (image : RawFrame) (r : CaptureRegion)
    (hx0 : 0 ≤ r.x) (hxW : r.x < (image.width : Int))
    (hy0 : 0 ≤ r.y) (hyH : r.y < (image.height : Int)) :
    (∀ out, extractRegion image (some r) = Except.ok out →
      out.width = min r.width (image.width - r.x.toNat) ∧
      out.height = min r.height (image.height - r.y.toNat)) ∧
    (0 < min r.width (image.width - r.x.toNat) →
     0 < min r.height (image.height - r.y.toNat) →
     ∃ out, extractRegion image (some r) = Except.ok out) := by
  have hx : max r.x 0 = r.x := max_eq_left hx0
  have hy : max r.y 0 = r.y := max_eq_left hy0
  by_cases hz : min r.width (image.width - r.x.toNat) = 0 ∨
      min r.height (image.height - r.y.toNat) = 0
  · have hext : extractRegion image (some r) =
        Except.error "Invalid capture region" := by
      simp only [extractRegion, hx, hy]
      rw [if_pos hz]
    refine ⟨?_, ?_⟩
    · intro out hok
      rw [hext] at hok
      exact absurd hok (by simp)
    · intro hw hh
      rcases hz with hz | hz
    
      · omega
      · omega
  · have hext : extractRegion image (some r) =
        Except.ok (cropFrame image r.x.toNat r.y.toNat
          (min r.width (image.width - r.x.toNat))
          (min r.height (image.height - r.y.toNat))) := by
      simp only [extractRegion, hx, hy]
      rw [if_neg hz]
    refine ⟨?_, ?_⟩
    · intro out hok
      rw [hext] at hok
      cases hok
      exact ⟨rfl, rfl⟩
    · intro _ _
      exact ⟨_, hext⟩

theorem C1_witness :
    (∀ out, extractRegion ⟨4, 3, [[0, 1, 2, 3], [4, 5, 6, 7], [8, 9, 10, 11]]⟩
        (some ⟨1, 1, 10, 1⟩) = Except.ok out →
      out.width = min 10 (4 - (1 : Int).toNat) ∧
      out.height = min 1 (3 - (1 : Int).toNat)) ∧
    (0 < min 10 (4 - (1 : Int).toNat) → 0 < min 1 (3 - (1 : Int).toNat) →
     ∃ out, extractRegion ⟨4, 3, [[0, 1, 2, 3], [4, 5, 6, 7], [8, 9, 10, 11]]⟩
        (some ⟨1, 1, 10, 1⟩) = Except.ok out) :=
  C1_region_extraction_dims ⟨4, 3, [[0, 1, 2, 3], [4, 5, 6, 7], [8, 9, 10, 11]]⟩
    ⟨1, 1, 10, 1⟩ (by decide) (by decide) (by decide) (by decide)

/-- C2: with at least one screen available, capture_screenshot_region fails
with the invalid-region error exactly when the clamped width or clamped
height is zero, and in that case the file system is untouched: no image is
saved.  This is the sole validation error of the pipeline. -/
theorem C2_invalid_region_iff (env : Env) (image : RawFrame)
    (rest : List RawFrame) (r : CaptureRegion) (fs : FS)
    (hs : env.screens = image :: rest) :
    ((capture_screenshot_region env (some r) fs).2 =
        Except.error "Invalid capture region" ↔
      (min r.width (image.width - (max r.x 0).toNat) = 0 ∨
       min r.height (image.height - (max r.y 0).toNat) = 0)) ∧
    ((min r.width (image.width - (max r.x 0).toNat) = 0 ∨
      min r.height (image.height - (max r.y 0).toNat) = 0) →
      capture_screenshot_region env (some r) fs =
        (fs, Except.error "Invalid capture region")) := by
  by_cases hz : (min r.width (image.width - (max r.x 0).toNat) = 0 ∨
      min r.height (image.height - (max r.y 0).toNat) = 0)
  · have hext : extractRegion image (some r) =
        Except.error "Invalid capture region" := by
      simp only [extractRegion]
      rw [if_pos hz]
    refine ⟨⟨fun _ => hz, fun _ => ?_⟩, fun _ => ?_⟩
    · simp [capture_screenshot_region, hs, hext]
    · simp [capture_screenshot_region, hs, hext]
  · have hext : extractRegion image (some r) =
        Except.ok (cropFrame image (max r.x 0).toNat (max r.y 0).toNat
          (min r.width (image.width - (max r.x 0).toNat))
          (min r.height (image.height - (max r.y 0).toNat))) := by
      simp only [extractRegion]
      rw [if_neg hz]
    have hne : (capture_screenshot_region env (some r) fs).2 ≠
        Except.error "Invalid capture region" := by
      rcases henv : env.home with _ | h
      · simp [capture_screenshot_region, hs, hext, get_app_data_dir, henv]
      · simp [capture_screenshot_region, hs, hext, get_app_data_dir, henv]
    exact ⟨iff_of_false hne hz, fun hzz => absurd hzz hz⟩

theorem C2_witness :
    ((capture_screenshot_region
        ⟨some "/home/u", [⟨4, 3, [[0, 1, 2, 3], [4, 5, 6, 7], [8, 9, 10, 11]]⟩],
          ⟨2024, 5, 6, 7, 8, 9, 0⟩⟩ (some ⟨5, 0, 2, 2⟩) ⟨[], []⟩).2 =
        Except.error "Invalid capture region" ↔
      (min 2 (4 - (max (5 : Int) 0).toNat) = 0 ∨
       min 2 (3 - (max (0 : Int) 0).toNat) = 0)) ∧
    ((min 2 (4 - (max (5 : Int) 0).toNat) = 0 ∨
      min 2 (3 - (max (0 : Int) 0).toNat) = 0) →
      capture_screenshot_region
        ⟨some "/home/u", [⟨4, 3, [[0, 1, 2, 3], [4, 5, 6, 7], [8, 9, 10, 11]]⟩],
          ⟨2024, 5, 6, 7, 8, 9, 0⟩⟩ (some ⟨5, 0, 2, 2⟩) ⟨[], []⟩ =
        (⟨[], []⟩, Except.error "Invalid capture region")) :=
  C2_invalid_region_iff
    ⟨some "/home/u", [⟨4, 3, [[0, 1, 2, 3], [4, 5, 6, 7], [8, 9, 10, 11]]⟩],
      ⟨2024, 5, 6, 7, 8, 9, 0⟩⟩
    ⟨4, 3, [[0, 1, 2, 3], [4, 5, 6, 7], [8, 9, 10, 11]]⟩ [] ⟨5, 0, 2, 2⟩
    ⟨[], []⟩ rfl

/-- C3: when the optional CaptureRegion argument is absent, the
region-extraction step is the identity: the bitmap handed on to encoding
and saving is bit-identical to the captured frame, with no cropping,
clamping or validation applied. -/
theorem C3_no_region_identity (image : RawFrame) :
    extractRegion image none = Except.ok image := rfl

/-! Run lemmas: each command evaluated under a known home directory. -/

theorem save_ocr_result_run (env : Env) (h : String) (r : OcrResult) (fs : FS)
    (hh : env.home = some h) :
    save_ocr_result env r fs =
      (fsWrite fs (resultsPath h)
        (Content.results (loadResultsLenient fs (resultsPath h) ++ [r])),
       Except.ok ()) := by
  simp [save_ocr_result, get_app_data_dir, hh, resultsPath]

theorem get_ocr_history_run (env : Env) (h : String) (fs : FS)
    (hh : env.home = some h) :
    get_ocr_history env fs =
      match fsRead fs (resultsPath h) with
      | none => Except.ok []
      | some content =>
        match parseResults content with
        | none => Except.error "Failed to parse results file"
        | some results => Except.ok results := by
  simp [get_ocr_history, get_app_data_dir, hh, resultsPath]

theorem parseResults_results_finite (rs : List OcrResult)
    (hfin : ∀ r ∈ rs, r.confidence.isFinite = true) :
    parseResults (Content.results rs) = some rs := by
  have hall : rs.all (fun r => r.confidence.isFinite) = true := by
    rw [List.all_eq_true]
    exact hfin
  simp [parseResults, hall]

theorem save_ocr_result_all_read (env : Env) (h : String)
    (rs : List OcrResult) (hh : env.home = some h) :
    ∀ (fs : FS) (acc : List OcrResult),
      (∀ x ∈ acc, x.confidence.isFinite = true) →
      (∀ x ∈ rs, x.confidence.isFinite = true) →
      fsRead fs (resultsPath h) = some (Content.results acc) →
      fsRead (save_ocr_result_all env rs fs) (resultsPath h) =
        some (Content.results (acc ++ rs)) := by
  induction rs with
  | nil =>
    intro fs acc _ _ hread
    simpa [save_ocr_result_all] using hread
  | cons r rs ih =>
    intro fs acc haccfin hrsfin hread
    have hrfin : r.confidence.isFinite = true :=
      hrsfin r (List.mem_cons_self r rs)
    have htailfin : ∀ x ∈ rs, x.confidence.isFinite = true :=
      fun x hx => hrsfin x (List.mem_cons_of_mem r hx)
    have hload : loadResultsLenient fs (resultsPath h) = acc := by
      simp [loadResultsLenient, hread, parseResults_results_finite acc haccfin]
    have hfst : (save_ocr_result env r fs).1 =
        fsWrite fs (resultsPath h) (Content.results (acc ++ [r])) := by
      rw [save_ocr_result_run env h r fs hh, hload]
    have hread2 : fsRead (save_ocr_result env r fs).1 (resultsPath h) =
        some (Content.results (acc ++ [r])) := by
      rw [hfst]
      exact fsRead_fsWrite_self fs (resultsPath h) (Content.results (acc ++ [r]))
    have haccrfin : ∀ x ∈ acc ++ [r], x.confidence.isFinite = true := by
      intro x hx
      rcases List.mem_append.mp hx with hx | hx
      · exact haccfin x hx
      · rcases List.mem_singleton.mp hx with rfl
        exact hrfin
    have hrest := ih (save_ocr_result env r fs).1 (acc ++ [r])
      haccrfin htailfin hread2
    simp only [save_ocr_result_all]
    simpa [List.append_assoc] using hrest

/-- C4 counterexample: the claim as stated fails on the code for the
one-element sequence holding a result whose confidence is NaN.  Starting
from no ledger file, save_ocr_result succeeds (to_string_pretty writes the
NaN confidence as null), but the subsequent get_ocr_history fails to parse
the written document instead of returning the appended result. -/
theorem C4_counterexample :
    get_ocr_history ⟨some "/home/u", [], ⟨2024, 1, 2, 3, 4, 5, 0⟩⟩
      (save_ocr_result_all ⟨some "/home/u", [], ⟨2024, 1, 2, 3, 4, 5, 0⟩⟩
        [⟨"id1", "alpha", ⟨2024, 1, 2, 3, 4, 5, 0⟩, "/a.png", F32.nan⟩]
        ⟨[], []⟩) ≠
      Except.ok
        [⟨"id1", "alpha", ⟨2024, 1, 2, 3, 4, 5, 0⟩, "/a.png", F32.nan⟩] := by
  have hrun : get_ocr_history ⟨some "/home/u", [], ⟨2024, 1, 2, 3, 4, 5, 0⟩⟩
      (save_ocr_result_all ⟨some "/home/u", [], ⟨2024, 1, 2, 3, 4, 5, 0⟩⟩
        [⟨"id1", "alpha", ⟨2024, 1, 2, 3, 4, 5, 0⟩, "/a.png", F32.nan⟩]
        ⟨[], []⟩) =
      Except.error "Failed to parse results file" := rfl
  rw [hrun]
  exact fun hcontra => nomatch hcontra

/-- C4 (amended): starting from a state with no ledger file, appending N
results whose confidence values are all finite sequentially with
save_ocr_result and then calling get_ocr_history returns exactly those N
results in insertion order, oldest first: none is dropped, duplicated,
mutated or reordered.  The finiteness restriction is forced by the
counterexample: a non-finite confidence is serialized as null and the
written ledger then fails to re-parse. -/
theorem C4_sequential_appends (env : Env) (h : String) (rs : List OcrResult)
    (fs : FS) (hh : env.home = some h)
    (h0 : fsRead fs (resultsPath h) = none)
    (hfin : ∀ x ∈ rs, x.confidence.isFinite = true) :
    get_ocr_history env (save_ocr_result_all env rs fs) = Except.ok rs := by
  cases rs with
  | nil =>
    rw [show save_ocr_result_all env [] fs = fs from rfl,
      get_ocr_history_run env h fs hh, h0]
  | cons r rs =>
    have hrfin : r.confidence.isFinite = true :=
      hfin r (List.mem_cons_self r rs)
    have htailfin : ∀ x ∈ rs, x.confidence.isFinite = true :=
      fun x hx => hfin x (List.mem_cons_of_mem r hx)
    have hload : loadResultsLenient fs (resultsPath h) = [] := by
      simp [loadResultsLenient, h0]
    have hfst : (save_ocr_result env r fs).1 =
        fsWrite fs (resultsPath h) (Content.results [r]) := by
      rw [save_ocr_result_run env h r fs hh, hload]
      rfl
    have h1 : fsRead (save_ocr_result env r fs).1 (resultsPath h) =
        some (Content.results [r]) := by
      rw [hfst]
      exact fsRead_fsWrite_self fs (resultsPath h) (Content.results [r])
    have hrsingle : ∀ x ∈ [r], x.confidence.isFinite = true := by
      intro x hx
      rcases List.mem_singleton.mp hx with rfl
      exact hrfin
    have h2 := save_ocr_result_all_read env h rs hh
      (save_ocr_result env r fs).1 [r] hrsingle htailfin h1
    simp only [List.singleton_append] at h2
    simp only [save_ocr_result_all]
    rw [get_ocr_history_run env h _ hh, h2]
    simp [parseResults_results_finite (r :: rs) hfin]

theorem C4_witness :
    (∀ x ∈ [(⟨"id1", "alpha", ⟨2024, 1, 2, 3, 4, 5, 0⟩, "/a.png",
          F32.finite 90⟩ : OcrResult),
        ⟨"id2", "beta", ⟨2024, 1, 2, 3, 4, 6, 0⟩, "/b.png", F32.finite 80⟩],
      x.confidence.isFinite = true) ∧
    get_ocr_history ⟨some "/home/u", [], ⟨2024, 1, 2, 3, 4, 5, 0⟩⟩
      (save_ocr_result_all ⟨some "/home/u", [], ⟨2024, 1, 2, 3, 4, 5, 0⟩⟩
        [⟨"id1", "alpha", ⟨2024, 1, 2, 3, 4, 5, 0⟩, "/a.png", F32.finite 90⟩,
         ⟨"id2", "beta", ⟨2024, 1, 2, 3, 4, 6, 0⟩, "/b.png", F32.finite 80⟩]
        ⟨[], []⟩) =
      Except.ok
        [⟨"id1", "alpha", ⟨2024, 1, 2, 3, 4, 5, 0⟩, "/a.png", F32.finite 90⟩,
         ⟨"id2", "beta", ⟨2024, 1, 2, 3, 4, 6, 0⟩, "/b.png", F32.finite 80⟩] :=
  ⟨by decide,
   C4_sequential_appends ⟨some "/home/u", [], ⟨2024, 1, 2, 3, 4, 5, 0⟩⟩
    "/home/u"
    [⟨"id1", "alpha", ⟨2024, 1, 2, 3, 4, 5, 0⟩, "/a.png", F32.finite 90⟩,
     ⟨"id2", "beta", ⟨2024, 1, 2, 3, 4, 6, 0⟩, "/b.png", F32.finite 80⟩]
    ⟨[], []⟩ rfl rfl (by decide)⟩

/-- C5: save_ocr_result treats a missing ledger file and an unparseable
ledger file alike as the empty sequence, so the rewritten file holds only
the new result and the call succeeds; get_ocr_history instead returns the
empty sequence only for a missing file and fails with a parse error when
the file exists but its content is malformed. -/
theorem C5_append_lenient_load_strict (env : Env) (h : String) (r : OcrResult)
    (fsA fsB : FS) (c : Content) (hh : env.home = some h)
    (ha : fsRead fsA (resultsPath h) = none)
    (hb : fsRead fsB (resultsPath h) = some c)
    (hc : parseResults c = none) :
    save_ocr_result env r fsA =
      (fsWrite fsA (resultsPath h) (Content.results [r]), Except.ok ()) ∧
    save_ocr_result env r fsB =
      (fsWrite fsB (resultsPath h) (Content.results [r]), Except.ok ()) ∧
    get_ocr_history env fsA = Except.ok [] ∧
    get_ocr_history env fsB = Except.error "Failed to parse results file" := by
  refine ⟨?_, ?_, ?_, ?_⟩
  · rw [save_ocr_result_run env h r fsA hh]
    simp [loadResultsLenient, ha]
  · rw [save_ocr_result_run env h r fsB hh]
    simp [loadResultsLenient, hb, hc]
  · rw [get_ocr_history_run env h fsA hh, ha]
  · rw [get_ocr_history_run env h fsB hh, hb]
    simp [hc]

theorem C5_witness :
    save_ocr_result ⟨some "/home/u", [], ⟨2024, 1, 2, 3, 4, 5, 0⟩⟩
        ⟨"id1", "alpha", ⟨2024, 1, 2, 3, 4, 5, 0⟩, "/a.png", F32.finite 90⟩
        ⟨[], []⟩ =
      (fsWrite ⟨[], []⟩ (resultsPath "/home/u")
        (Content.results
          [⟨"id1", "alpha", ⟨2024, 1, 2, 3, 4, 5, 0⟩, "/a.png", F32.finite 90⟩]),
       Except.ok ()) ∧
    save_ocr_result ⟨some "/home/u", [], ⟨2024, 1, 2, 3, 4, 5, 0⟩⟩
        ⟨"id1", "alpha", ⟨2024, 1, 2, 3, 4, 5, 0⟩, "/a.png", F32.finite 90⟩
        ⟨[(resultsPath "/home/u", Content.malformed "oops")], []⟩ =
      (fsWrite ⟨[(resultsPath "/home/u", Content.malformed "oops")], []⟩
        (resultsPath "/home/u")
        (Content.results
          [⟨"id1", "alpha", ⟨2024, 1, 2, 3, 4, 5, 0⟩, "/a.png", F32.finite 90⟩]),
       Except.ok ()) ∧
    get_ocr_history ⟨some "/home/u", [], ⟨2024, 1, 2, 3, 4, 5, 0⟩⟩ ⟨[], []⟩ =
      Except.ok [] ∧
    get_ocr_history ⟨some "/home/u", [], ⟨2024, 1, 2, 3, 4, 5, 0⟩⟩
        ⟨[(resultsPath "/home/u", Content.malformed "oops")], []⟩ =
      Except.error "Failed to parse results file" :=
  C5_append_lenient_load_strict ⟨some "/home/u", [], ⟨2024, 1, 2, 3, 4, 5, 0⟩⟩
    "/home/u"
    ⟨"id1", "alpha", ⟨2024, 1, 2, 3, 4, 5, 0⟩, "/a.png", F32.finite 90⟩
    ⟨[], []⟩ ⟨[(resultsPath "/home/u", Content.malformed "oops")], []⟩
    (Content.malformed "oops") rfl rfl (by simp [fsRead, lookupFile]) rfl

theorem get_settings_run (env : Env) (h : String) (fs : FS)
    (hh : env.home = some h) :
    get_settings env fs =
      match fsRead fs (settingsPath h) with
      | none => Except.ok (AppSettings.default env.home)
      | some content =>
        match parseSettings content with
        | none => Except.error "Failed to parse settings file"
        | some s => Except.ok s := by
  simp [get_settings, get_app_data_dir, hh, settingsPath]

/-- C6: when the settings file is absent, get_settings succeeds and returns
the computed default record, whose hotkey is ctrl+shift+o, whose clipboard
and screenshot-saving flags are on, whose autostart flag is off and whose
screenshots directory is the home directory joined with the fixed subpath;
when the file is present but malformed, it fails with a parse error. -/
theorem C6_settings_defaults (env : Env) (h : String) (fsA fsB : FS)
    (c : Content) (hh : env.home = some h)
    (ha : fsRead fsA (settingsPath h) = none)
    (hb : fsRead fsB (settingsPath h) = some c)
    (hc : parseSettings c = none) :
    get_settings env fsA = Except.ok
      { global_hotkey := "ctrl+shift+o"
        auto_copy_to_clipboard := true
        save_screenshots := true
        screenshots_dir := pathJoin (pathJoin h "InstantText OCR") "Screenshots"
        autostart := false } ∧
    get_settings env fsB = Except.error "Failed to parse settings file" := by
  constructor
  · rw [get_settings_run env h fsA hh, ha]
    simp [AppSettings.default, get_default_screenshots_dir, hh]
  · rw [get_settings_run env h fsB hh, hb]
    simp [hc]

theorem C6_witness :
    get_settings ⟨some "/home/u", [], ⟨2024, 1, 2, 3, 4, 5, 0⟩⟩ ⟨[], []⟩ =
      Except.ok
        { global_hotkey := "ctrl+shift+o"
          auto_copy_to_clipboard := true
          save_screenshots := true
          screenshots_dir :=
            pathJoin (pathJoin "/home/u" "InstantText OCR") "Screenshots"
          autostart := false } ∧
    get_settings ⟨some "/home/u", [], ⟨2024, 1, 2, 3, 4, 5, 0⟩⟩
        ⟨[(settingsPath "/home/u", Content.malformed "oops")], []⟩ =
      Except.error "Failed to parse settings file" :=
  C6_settings_defaults ⟨some "/home/u", [], ⟨2024, 1, 2, 3, 4, 5, 0⟩⟩ "/home/u"
    ⟨[], []⟩ ⟨[(settingsPath "/home/u", Content.malformed "oops")], []⟩
    (Content.malformed "oops") rfl rfl (by simp [fsRead, lookupFile]) rfl

/-- C7: saving any AppSettings record with save_settings and then calling
get_settings returns exactly the record that was saved: the write-then-read
round trip is identity-preserving on all five fields. -/
theorem C7_settings_roundtrip (env : Env) (h : String) (s : AppSettings)
    (fs : FS) (hh : env.home = some h) :
    get_settings env (save_settings env s fs).1 = Except.ok s := by
  have hfst : (save_settings env s fs).1 =
      fsWrite fs (settingsPath h) (Content.settings s) := by
    simp [save_settings, get_app_data_dir, hh, settingsPath]
  rw [get_settings_run env h _ hh, hfst,
    fsRead_fsWrite_self fs (settingsPath h) (Content.settings s)]
  rfl

theorem C7_witness :
    get_settings ⟨some "/home/u", [], ⟨2024, 1, 2, 3, 4, 5, 0⟩⟩
      (save_settings ⟨some "/home/u", [], ⟨2024, 1, 2, 3, 4, 5, 0⟩⟩
        ⟨"alt+f4", false, false, "/tmp/shots", true⟩ ⟨[], []⟩).1 =
      Except.ok ⟨"alt+f4", false, false, "/tmp/shots", true⟩ :=
  C7_settings_roundtrip ⟨some "/home/u", [], ⟨2024, 1, 2, 3, 4, 5, 0⟩⟩
    "/home/u" ⟨"alt+f4", false, false, "/tmp/shots", true⟩ ⟨[], []⟩ rfl

theorem formatTimestamp_trunc (t1 t2 : Timestamp)
    (hsec : truncSecond t1 = truncSecond t2) :
    formatTimestamp t1 = formatTimestamp t2 := by
  cases t1
  cases t2
  simp only [truncSecond, Timestamp.mk.injEq] at hsec
  obtain ⟨h1, h2, h3, h4, h5, h6, _⟩ := hsec
  simp [formatTimestamp, h1, h2, h3, h4, h5, h6]

theorem capture_none_run (env : Env) (f : RawFrame) (rest : List RawFrame)
    (h : String) (fs : FS)
    (hs : env.screens = f :: rest) (hh : env.home = some h) :
    capture_screenshot_region env none fs =
      (fsWrite
        (mkdirAll fs (pathJoin (pathJoin h "InstantText OCR") "screenshots"))
        (pathJoin (pathJoin (pathJoin h "InstantText OCR") "screenshots")
          ("screenshot_" ++ formatTimestamp env.now ++ ".png"))
        (Content.image f),
       Except.ok (pathJoin (pathJoin (pathJoin h "InstantText OCR") "screenshots")
          ("screenshot_" ++ formatTimestamp env.now ++ ".png"))) := by
  simp [capture_screenshot_region, hs, extractRegion, get_app_data_dir, hh]

/-- C8: the artifact path written by capture_screenshot_region is a
deterministic function of the UTC timestamp truncated to second precision,
of the form screenshot_YYYYMMDD_HHMMSS.png inside the managed screenshots
directory; two saves within the same UTC second return the same path, the
later save overwrites the earlier file at that path, and the returned value
is exactly the path written. -/
theorem C8_timestamp_filename_overwrite (env1 env2 : Env) (f1 f2 : RawFrame)
    (r1 r2 : List RawFrame) (fs : FS) (h : String)
    (hs1 : env1.screens = f1 :: r1) (hs2 : env2.screens = f2 :: r2)
    (hh1 : env1.home = some h) (hh2 : env2.home = some h)
    (hsec : truncSecond env1.now = truncSecond env2.now) :
    ∃ p,
      (capture_screenshot_region env1 none fs).2 = Except.ok p ∧
      (capture_screenshot_region env2 none
        (capture_screenshot_region env1 none fs).1).2 = Except.ok p ∧
      p = pathJoin (pathJoin (pathJoin h "InstantText OCR") "screenshots")
            ("screenshot_" ++ formatTimestamp env1.now ++ ".png") ∧
      fsRead (capture_screenshot_region env2 none
          (capture_screenshot_region env1 none fs).1).1 p =
        some (Content.image f2) := by
  have hfmt := formatTimestamp_trunc env1.now env2.now hsec
  have hc1 := capture_none_run env1 f1 r1 h fs hs1 hh1
  have hc2 := capture_none_run env2 f2 r2 h
    (capture_screenshot_region env1 none fs).1 hs2 hh2
  refine ⟨_, ?_, ?_, rfl, ?_⟩
  · rw [hc1]
  · rw [hc2, hfmt]
  · rw [hc2, hfmt]
    exact fsRead_fsWrite_self _ _ _

theorem C8_witness :
    ∃ p,
      (capture_screenshot_region
        ⟨some "/home/u", [⟨1, 1, [[7]]⟩], ⟨2024, 1, 2, 3, 4, 5, 111⟩⟩ none
        ⟨[], []⟩).2 = Except.ok p ∧
      (capture_screenshot_region
        ⟨some "/home/u", [⟨1, 1, [[9]]⟩], ⟨2024, 1, 2, 3, 4, 5, 999⟩⟩ none
        (capture_screenshot_region
          ⟨some "/home/u", [⟨1, 1, [[7]]⟩], ⟨2024, 1, 2, 3, 4, 5, 111⟩⟩ none
          ⟨[], []⟩).1).2 = Except.ok p ∧
      p = pathJoin (pathJoin (pathJoin "/home/u" "InstantText OCR") "screenshots")
            ("screenshot_" ++
              formatTimestamp ⟨2024, 1, 2, 3, 4, 5, 111⟩ ++ ".png") ∧
      fsRead (capture_screenshot_region
          ⟨some "/home/u", [⟨1, 1, [[9]]⟩], ⟨2024, 1, 2, 3, 4, 5, 999⟩⟩ none
          (capture_screenshot_region
            ⟨some "/home/u", [⟨1, 1, [[7]]⟩], ⟨2024, 1, 2, 3, 4, 5, 111⟩⟩ none
            ⟨[], []⟩).1).1 p =
        some (Content.image ⟨1, 1, [[9]]⟩) :=
  C8_timestamp_filename_overwrite
    ⟨some "/home/u", [⟨1, 1, [[7]]⟩], ⟨2024, 1, 2, 3, 4, 5, 111⟩⟩
    ⟨some "/home/u", [⟨1, 1, [[9]]⟩], ⟨2024, 1, 2, 3, 4, 5, 999⟩⟩
    ⟨1, 1, [[7]]⟩ ⟨1, 1, [[9]]⟩ [] [] ⟨[], []⟩ "/home/u"
    rfl rfl rfl rfl rfl

theorem pathJoin_screenshots_case_ne (s : String) :
    pathJoin s "Screenshots" ≠ pathJoin s "screenshots" := by
  intro hcontra
  have hdata := congrArg String.data hcontra
  simp only [pathJoin, String.data_append] at hdata
  have htail := List.append_cancel_left hdata
  exact absurd htail (by decide)

/-- C9: capture_screenshot_region always writes under the fixed directory
obtained by joining the home directory, the application folder and the
lowercase screenshots folder, independent of the file-system state and in
particular of any persisted AppSettings screenshots_dir value: two runs over
different states return the same path.  The default settings value, which
ends in the capitalized Screenshots folder, is never the directory written
to. -/
theorem C9_fixed_directory (env : Env) (f : RawFrame) (rest : List RawFrame)
    (fs1 fs2 : FS) (h : String)
    (hs : env.screens = f :: rest) (hh : env.home = some h) :
    ((capture_screenshot_region env none fs1).2 =
        Except.ok (pathJoin (pathJoin (pathJoin h "InstantText OCR") "screenshots")
          ("screenshot_" ++ formatTimestamp env.now ++ ".png")) ∧
     (capture_screenshot_region env none fs2).2 =
        (capture_screenshot_region env none fs1).2) ∧
    get_default_screenshots_dir env.home ≠
      pathJoin (pathJoin h "InstantText OCR") "screenshots" := by
  refine ⟨⟨?_, ?_⟩, ?_⟩
  · rw [capture_none_run env f rest h fs1 hs hh]
  · rw [capture_none_run env f rest h fs1 hs hh,
      capture_none_run env f rest h fs2 hs hh]
  · rw [hh]
    exact pathJoin_screenshots_case_ne (pathJoin h "InstantText OCR")

theorem C9_witness :
    ((capture_screenshot_region
        ⟨some "/home/u", [⟨1, 1, [[7]]⟩], ⟨2024, 1, 2, 3, 4, 5, 0⟩⟩ none
        ⟨[], []⟩).2 =
      Except.ok (pathJoin (pathJoin (pathJoin "/home/u" "InstantText OCR")
          "screenshots")
        ("screenshot_" ++ formatTimestamp ⟨2024, 1, 2, 3, 4, 5, 0⟩ ++ ".png")) ∧
     (capture_screenshot_region
        ⟨some "/home/u", [⟨1, 1, [[7]]⟩], ⟨2024, 1, 2, 3, 4, 5, 0⟩⟩ none
        ⟨[(settingsPath "/home/u",
            Content.settings ⟨"ctrl+shift+o", true, true, "/custom/dir", false⟩)],
          []⟩).2 =
      (capture_screenshot_region
        ⟨some "/home/u", [⟨1, 1, [[7]]⟩], ⟨2024, 1, 2, 3, 4, 5, 0⟩⟩ none
        ⟨[], []⟩).2) ∧
    get_default_screenshots_dir (some "/home/u") ≠
      pathJoin (pathJoin "/home/u" "InstantText OCR") "screenshots" :=
  C9_fixed_directory
    ⟨some "/home/u", [⟨1, 1, [[7]]⟩], ⟨2024, 1, 2, 3, 4, 5, 0⟩⟩
    ⟨1, 1, [[7]]⟩ [] ⟨[], []⟩
    ⟨[(settingsPath "/home/u",
        Content.settings ⟨"ctrl+shift+o", true, true, "/custom/dir", false⟩)],
      []⟩
    "/home/u" rfl rfl

/-- C10: register_global_hotkey empties the global hotkey registry before
parsing the supplied string, so when parsing fails the operation returns a
parse error with the previous binding already removed: the registry state is
changed even on the error path and the operation is not atomic. -/
theorem C10_unregister_before_parse (parse : String → Option String)
    (st : HotkeyState) (hotkey : String) (hp : parse hotkey = none) :
    register_global_hotkey parse st hotkey =
      (⟨[]⟩, Except.error ("Failed to parse hotkey " ++ hotkey)) := by
  simp [register_global_hotkey, unregister_all, hp]

theorem C10_witness :
    register_global_hotkey (fun _ => none) ⟨["ctrl+shift+o"]⟩ "not a hotkey" =
      (⟨[]⟩, Except.error ("Failed to parse hotkey " ++ "not a hotkey")) :=
  C10_unregister_before_parse (fun _ => none) ⟨["ctrl+shift+o"]⟩
    "not a hotkey" rfl
